import Mathlib

/-!
Verification of the FramePro Portal Method calculation engine.

The definitions below are a shallow embedding of `calculateResults` from
`src/context/CalculationContext.tsx` (the engine variant the specification's
claims cite).  JavaScript numbers are modelled by rationals `ℚ`; array reads
use `List.getD` with default `0`, matching the source at every index the
engine actually reads (all reads are in bounds for the shapes the loops
generate).  A second, four-constructor value type `JSVal` models the
IEEE-style non-finite values (`Infinity`, `NaN`) that JavaScript division by
zero produces, for the safety analysis of the unguarded divisor.
-/

namespace FramePro

/-- The analysis input, mirroring the `StructureData` interface of the source
(`structureType` is a rendering-only tag never read by `calculateResults` and
is omitted).  Indexing is top-to-bottom: index 0 is the topmost story. -/
structure StructureData where
  numStories : ℕ
  storyHeights : List ℚ
  spansPerStory : List ℕ
  spanMeasurements : List (List ℚ)
  lateralLoads : List ℚ
deriving DecidableEq

/-- The output grids, mirroring the `CalculationResults` interface of the
source, parametrised by the scalar type so the same shape serves the rational
model and the JavaScript-number model. -/
@[ext]
structure CalculationResults (α : Type) where
  columnShear : List (List α)
  columnMoment : List (List α)
  girderShear : List (List α)
  girderMoment : List (List α)
deriving DecidableEq

/-- Source: `const numColumns = spansPerStory[storyIndex] + 1`. -/
def numColumns (data : StructureData) (i : ℕ) : ℕ :=
  data.spansPerStory.getD i 0 + 1

/-- Source: `lateralLoads.slice(0, storyIndex + 1).reduce((sum, load) => sum + load, 0)`. -/
def cumulativeLoad (data : StructureData) (i : ℕ) : ℚ :=
  (data.lateralLoads.take (i + 1)).foldl (fun acc load => acc + load) 0

/-- Source: `const effectiveColumns = numColumns + (numColumns - 2)`. -/
def effectiveColumns (data : StructureData) (i : ℕ) : ℚ :=
  (numColumns data i : ℚ) + ((numColumns data i : ℚ) - 2)

/-- Source: `const exteriorColumnShear = cumulativeLoad / effectiveColumns`. -/
def exteriorColumnShear (data : StructureData) (i : ℕ) : ℚ :=
  cumulativeLoad data i / effectiveColumns data i

/-- Body of the column loop: exterior columns (first and last) get the base
shear, interior columns twice it. -/
def columnShearForce (data : StructureData) (i c : ℕ) : ℚ :=
  if c = 0 ∨ c = numColumns data i - 1 then exteriorColumnShear data i
  else exteriorColumnShear data i * 2

/-- Source: `const columnMomentValue = columnShearForce * (storyHeights[storyIndex] * 0.5)`. -/
def columnMomentValue (data : StructureData) (i c : ℕ) : ℚ :=
  columnShearForce data i c * (data.storyHeights.getD i 0 * 0.5)

/-- The `storyColumnShear` array after the column loop of story `i`. -/
def storyColumnShear (data : StructureData) (i : ℕ) : List ℚ :=
  (List.range (numColumns data i)).map (columnShearForce data i)

/-- The `storyColumnMoment` array after the column loop of story `i`. -/
def storyColumnMoment (data : StructureData) (i : ℕ) : List ℚ :=
  (List.range (numColumns data i)).map (columnMomentValue data i)

/-- The `cumulativeColumnMoment` accumulation loop of the girder-moment pass:
`for (upperStoryIndex = 0; upperStoryIndex <= storyIndex; upperStoryIndex++)`
adds the current story's moment at the joint when `upperStoryIndex` equals the
story, and an upper story's moment at the same column index when that index is
within the upper story's `columnMoment` row. -/
def cumulativeColumnMoment (data : StructureData) (i c : ℕ) : ℚ :=
  (List.range (i + 1)).foldl
    (fun acc u =>
      if u = i then acc + (storyColumnMoment data i).getD c 0
      else if u < i then
        (if c < (storyColumnMoment data u).length then
          acc + (storyColumnMoment data u).getD c 0
        else acc)
      else acc) 0

/-- The girder-moment sweep: the first joint takes the accumulated column
moment unchanged, every later joint takes the absolute difference with the
previous girder moment. -/
def girderMomentValue (data : StructureData) (i : ℕ) : ℕ → ℚ
  | 0 => cumulativeColumnMoment data i 0
  | s + 1 => |cumulativeColumnMoment data i (s + 1) - girderMomentValue data i s|

/-- The `rightMoment` of span `s`: for a non-last span the inline recomputation
`|nextColumnMoment - girderMomentValue|`, for the last span the accumulated
column moment at the last column `spansPerStory[storyIndex]`. -/
def rightMoment (data : StructureData) (i s : ℕ) : ℚ :=
  if s < data.spansPerStory.getD i 0 - 1 then
    |cumulativeColumnMoment data i (s + 1) - girderMomentValue data i s|
  else
    cumulativeColumnMoment data i (data.spansPerStory.getD i 0)

/-- Source: `const girderShearValue = (leftMoment + rightMoment) / spanLength`. -/
def girderShearValue (data : StructureData) (i s : ℕ) : ℚ :=
  (girderMomentValue data i s + rightMoment data i s) /
    (data.spanMeasurements.getD i []).getD s 0

/-- The `storyGirderMoment` array after the span loop of story `i`. -/
def storyGirderMoment (data : StructureData) (i : ℕ) : List ℚ :=
  (List.range (data.spansPerStory.getD i 0)).map (girderMomentValue data i)

/-- The `storyGirderShear` array after the span loop of story `i`. -/
def storyGirderShear (data : StructureData) (i : ℕ) : List ℚ :=
  (List.range (data.spansPerStory.getD i 0)).map (girderShearValue data i)

/-- The whole engine: one row of each grid per story, top to bottom. -/
def calculateResults (data : StructureData) : CalculationResults ℚ :=
  { columnShear := (List.range data.numStories).map (storyColumnShear data)
    columnMoment := (List.range data.numStories).map (storyColumnMoment data)
    girderShear := (List.range data.numStories).map (storyGirderShear data)
    girderMoment := (List.range data.numStories).map (storyGirderMoment data) }

/-- The structural-validity conditions of spec section 4.1: at least one
story, grids of matching lengths, positive heights and span lengths, at least
one span per story, non-negative lateral loads. -/
def ValidStructure (data : StructureData) : Prop :=
  1 ≤ data.numStories ∧
  data.storyHeights.length = data.numStories ∧
  data.spansPerStory.length = data.numStories ∧
  data.spanMeasurements.length = data.numStories ∧
  data.lateralLoads.length = data.numStories ∧
  (∀ h ∈ data.storyHeights, 0 < h) ∧
  (∀ s ∈ data.spansPerStory, 1 ≤ s) ∧
  (∀ i, i < data.numStories →
    (data.spanMeasurements.getD i []).length = data.spansPerStory.getD i 0) ∧
  (∀ row ∈ data.spanMeasurements, ∀ l ∈ row, 0 < l) ∧
  (∀ load ∈ data.lateralLoads, 0 ≤ load)

instance (data : StructureData) : Decidable (ValidStructure data) := by
  unfold ValidStructure; infer_instance

/-- The default two-story structure from the source
(`defaultStructureData`), which is also the spec's round-trip scenario. -/
def defaultStructureData : StructureData :=
  { numStories := 2
    storyHeights := [3, 3]
    spansPerStory := [2, 2]
    spanMeasurements := [[4, 4], [4, 4]]
    lateralLoads := [10, 10] }

/-! ## Spec-side definitions

`specJointColumnMoment` follows the words of spec section 4.3: the joint
column moment is the current story's column moment at the joint plus the
column moment of the story directly above only, when the column exists there
per the left-aligned rule, else 0.  `specAnalyze` is the reference engine of
spec section 4 written from the spec's words (validator aside), with no
rounding anywhere: column pass per section 4.2, girder-moment sweep per
section 4.3 with the adjacent-story-only joint moment, girder shear per
section 4.4 reading the already-advanced next girder moment. -/

/-- Spec section 4.2: `cumulativeLoad(i) = sum(lateralLoads[0..i])`. -/
def specCumulativeLoad (data : StructureData) (i : ℕ) : ℚ :=
  (data.lateralLoads.take (i + 1)).sum

/-- Spec section 4.2: `effectiveColumnUnits(i) = numColumns(i) + (numColumns(i) - 2)`. -/
def specEffectiveColumnUnits (data : StructureData) (i : ℕ) : ℚ :=
  (numColumns data i : ℚ) + ((numColumns data i : ℚ) - 2)

/-- Spec section 4.2: `exteriorUnitShear(i) = cumulativeLoad(i) / effectiveColumnUnits(i)`. -/
def specExteriorUnitShear (data : StructureData) (i : ℕ) : ℚ :=
  specCumulativeLoad data i / specEffectiveColumnUnits data i

/-- Spec section 4.2: exterior columns carry the unit shear, interior columns
twice it. -/
def specColumnShear (data : StructureData) (i c : ℕ) : ℚ :=
  if c = 0 ∨ c = numColumns data i - 1 then specExteriorUnitShear data i
  else 2 * specExteriorUnitShear data i

/-- Spec section 4.2: `columnMoment[i][c] = columnShear[i][c] × storyHeights[i] × 0.5`. -/
def specColumnMoment (data : StructureData) (i c : ℕ) : ℚ :=
  specColumnShear data i c * data.storyHeights.getD i 0 * 0.5

/-- Spec section 4.3: `jointColumnMoment(i, c) = columnMoment[i][c] +
(columnMoment[i-1][c] if column c exists on story i-1, else 0)`; for the
topmost story the above term is 0.  Column `c` exists on story `i-1` iff
`c < spansPerStory[i-1] + 1` (left-aligned rule, spec section 3). -/
def specJointColumnMoment (data : StructureData) (i c : ℕ) : ℚ :=
  specColumnMoment data i c +
    (if i = 0 then 0
     else if c < data.spansPerStory.getD (i - 1) 0 + 1 then specColumnMoment data (i - 1) c
     else 0)

/-- Spec section 4.3: the left-to-right girder-moment sweep. -/
def specGirderMoment (data : StructureData) (i : ℕ) : ℕ → ℚ
  | 0 => specJointColumnMoment data i 0
  | s + 1 => |specJointColumnMoment data i (s + 1) - specGirderMoment data i s|

/-- Spec section 4.4: the right-end moment of span `s` is the next girder
moment for a non-rightmost span, and the joint column moment at the last
column for the rightmost span. -/
def specRightMoment (data : StructureData) (i s : ℕ) : ℚ :=
  if s < data.spansPerStory.getD i 0 - 1 then specGirderMoment data i (s + 1)
  else specJointColumnMoment data i (data.spansPerStory.getD i 0)

/-- Spec section 4.4: `girderShear[i][s] = (girderMoment[i][s] + rightMoment) / spanLengths[i][s]`. -/
def specGirderShear (data : StructureData) (i s : ℕ) : ℚ :=
  (specGirderMoment data i s + specRightMoment data i s) /
    (data.spanMeasurements.getD i []).getD s 0

/-- The spec's reference engine (section 4, no rounding): all four grids from
the spec-side formulas above. -/
def specAnalyze (data : StructureData) : CalculationResults ℚ :=
  { columnShear := (List.range data.numStories).map (fun i =>
      (List.range (numColumns data i)).map (specColumnShear data i))
    columnMoment := (List.range data.numStories).map (fun i =>
      (List.range (numColumns data i)).map (specColumnMoment data i))
    girderShear := (List.range data.numStories).map (fun i =>
      (List.range (data.spansPerStory.getD i 0)).map (specGirderShear data i))
    girderMoment := (List.range data.numStories).map (fun i =>
      (List.range (data.spansPerStory.getD i 0)).map (specGirderMoment data i)) }

/-! ## Reference engine with the code's accumulation

`refAnalyze` is the no-rounding reference engine amended to the code's
cross-story accumulation: the joint column moment sums the column moments of
every story above (not just the adjacent one), each taken only where the
column exists per the left-aligned rule.  It is written as a clean sum, and
its girder-shear pass reads the already-computed next girder moment, so its
equality with `calculateResults` is the no-rounding/no-recomputation
refinement statement. -/

/-- Joint column moment with the code's accumulation: current story plus every
story above where column `c` exists (`c < spansPerStory[u] + 1`). -/
def refJointColumnMoment (data : StructureData) (i c : ℕ) : ℚ :=
  (storyColumnMoment data i).getD c 0 +
    ((List.range i).map (fun u =>
      if c < numColumns data u then (storyColumnMoment data u).getD c 0 else 0)).sum

/-- Girder-moment sweep over `refJointColumnMoment`. -/
def refGirderMoment (data : StructureData) (i : ℕ) : ℕ → ℚ
  | 0 => refJointColumnMoment data i 0
  | s + 1 => |refJointColumnMoment data i (s + 1) - refGirderMoment data i s|

/-- Right-end moment: the next sweep value for a non-rightmost span, the joint
column moment at the last column for the rightmost span. -/
def refRightMoment (data : StructureData) (i s : ℕ) : ℚ :=
  if s + 1 < data.spansPerStory.getD i 0 then refGirderMoment data i (s + 1)
  else refJointColumnMoment data i (data.spansPerStory.getD i 0)

/-- Formula `V = (M_left + M_right) / L` with no rounding. -/
def refGirderShear (data : StructureData) (i s : ℕ) : ℚ :=
  (refGirderMoment data i s + refRightMoment data i s) /
    (data.spanMeasurements.getD i []).getD s 0

/-- The reference engine with the code's accumulation and no rounding. -/
def refAnalyze (data : StructureData) : CalculationResults ℚ :=
  { columnShear := (List.range data.numStories).map (storyColumnShear data)
    columnMoment := (List.range data.numStories).map (storyColumnMoment data)
    girderShear := (List.range data.numStories).map (fun i =>
      (List.range (data.spansPerStory.getD i 0)).map (refGirderShear data i))
    girderMoment := (List.range data.numStories).map (fun i =>
      (List.range (data.spansPerStory.getD i 0)).map (refGirderMoment data i)) }

/-- A three-story regular structure (one bay per story, unit span lengths,
only the top story loaded) on which the code's all-stories-above accumulation
and the spec's adjacent-story-only joint moment disagree. -/
def data3 : StructureData :=
  { numStories := 3
    storyHeights := [2, 2, 2]
    spansPerStory := [1, 1, 1]
    spanMeasurements := [[1], [1], [1]]
    lateralLoads := [1, 0, 0] }

/-- A structurally invalid input: the lateral load is negative
(spec section 4.1 requires `lateralLoads[i] ≥ 0`). -/
def invalidData : StructureData :=
  { numStories := 1
    storyHeights := [3]
    spansPerStory := [1]
    spanMeasurements := [[4]]
    lateralLoads := [-10] }

/-- A degenerate input accepted by the calculation entry point: zero spans on
the only story, so `numColumns = 1` and `effectiveColumns = 1 + (1 - 2) = 0`. -/
def degenerateData : StructureData :=
  { numStories := 1
    storyHeights := [3]
    spansPerStory := [0]
    spanMeasurements := [[]]
    lateralLoads := [10] }

/-! ## JavaScript number model

The engine runs on JavaScript IEEE doubles, whose division by zero yields
`Infinity`/`NaN` rather than an error.  `JSVal` models a JavaScript number as
either a finite value (idealised as an exact rational) or one of the
non-finite values, with the IEEE special-value rules for each operation the
engine uses (signed zero is not modelled; no engine input produces it). -/
inductive JSVal where
  | fin : ℚ → JSVal
  | posInf : JSVal
  | negInf : JSVal
  | nan : JSVal
deriving DecidableEq

/-- JavaScript addition on the special values. -/
def jsAdd : JSVal → JSVal → JSVal
  | JSVal.fin a, JSVal.fin b => JSVal.fin (a + b)
  | JSVal.fin _, JSVal.posInf => JSVal.posInf
  | JSVal.fin _, JSVal.negInf => JSVal.negInf
  | JSVal.posInf, JSVal.fin _ => JSVal.posInf
  | JSVal.negInf, JSVal.fin _ => JSVal.negInf
  | JSVal.posInf, JSVal.posInf => JSVal.posInf
  | JSVal.negInf, JSVal.negInf => JSVal.negInf
  | _, _ => JSVal.nan

/-- JavaScript subtraction on the special values. -/
def jsSub : JSVal → JSVal → JSVal
  | JSVal.fin a, JSVal.fin b => JSVal.fin (a - b)
  | JSVal.fin _, JSVal.posInf => JSVal.negInf
  | JSVal.fin _, JSVal.negInf => JSVal.posInf
  | JSVal.posInf, JSVal.fin _ => JSVal.posInf
  | JSVal.negInf, JSVal.fin _ => JSVal.negInf
  | JSVal.posInf, JSVal.negInf => JSVal.posInf
  | JSVal.negInf, JSVal.posInf => JSVal.negInf
  | _, _ => JSVal.nan

/-- JavaScript multiplication on the special values. -/
def jsMul : JSVal → JSVal → JSVal
  | JSVal.fin a, JSVal.fin b => JSVal.fin (a * b)
  | JSVal.fin a, JSVal.posInf =>
    if 0 < a then JSVal.posInf else if a < 0 then JSVal.negInf else JSVal.nan
  | JSVal.fin a, JSVal.negInf =>
    if 0 < a then JSVal.negInf else if a < 0 then JSVal.posInf else JSVal.nan
  | JSVal.posInf, JSVal.fin b =>
    if 0 < b then JSVal.posInf else if b < 0 then JSVal.negInf else JSVal.nan
  | JSVal.negInf, JSVal.fin b =>
    if 0 < b then JSVal.negInf else if b < 0 then JSVal.posInf else JSVal.nan
  | JSVal.posInf, JSVal.posInf => JSVal.posInf
  | JSVal.posInf, JSVal.negInf => JSVal.negInf
  | JSVal.negInf, JSVal.posInf => JSVal.negInf
  | JSVal.negInf, JSVal.negInf => JSVal.posInf
  | _, _ => JSVal.nan

/-- JavaScript division on the special values: a nonzero finite value divided
by zero gives a signed infinity, `0 / 0` gives `NaN`. -/
def jsDiv : JSVal → JSVal → JSVal
  | JSVal.fin a, JSVal.fin b =>
    if b = 0 then
      (if 0 < a then JSVal.posInf else if a < 0 then JSVal.negInf else JSVal.nan)
    else JSVal.fin (a / b)
  | JSVal.fin _, JSVal.posInf => JSVal.fin 0
  | JSVal.fin _, JSVal.negInf => JSVal.fin 0
  | JSVal.posInf, JSVal.fin b => if b < 0 then JSVal.negInf else JSVal.posInf
  | JSVal.negInf, JSVal.fin b => if b < 0 then JSVal.posInf else JSVal.negInf
  | _, _ => JSVal.nan

/-- Model of `Math.abs` on the special values. -/
def jsAbs : JSVal → JSVal
  | JSVal.fin a => JSVal.fin |a|
  | JSVal.posInf => JSVal.posInf
  | JSVal.negInf => JSVal.posInf
  | JSVal.nan => JSVal.nan

/-- Model of `Number.isFinite`. -/
def JSVal.isFinite : JSVal → Bool
  | JSVal.fin _ => true
  | _ => false

/-! The same engine, executed with JavaScript-number semantics: the inputs are
finite numbers, every arithmetic step goes through the `js` operations.  The
structure of each definition mirrors the rational model above line by line. -/

/-- Source: `lateralLoads.slice(0, storyIndex + 1).reduce(...)` in JS semantics. -/
def cumulativeLoadJS (data : StructureData) (i : ℕ) : JSVal :=
  (data.lateralLoads.take (i + 1)).foldl (fun acc load => jsAdd acc (JSVal.fin load))
    (JSVal.fin 0)

/-- Source: `numColumns + (numColumns - 2)` in JS semantics. -/
def effectiveColumnsJS (data : StructureData) (i : ℕ) : JSVal :=
  jsAdd (JSVal.fin (numColumns data i : ℚ))
    (jsSub (JSVal.fin (numColumns data i : ℚ)) (JSVal.fin 2))

/-- Source: `cumulativeLoad / effectiveColumns` in JS semantics: this division is
unguarded in the source. -/
def exteriorColumnShearJS (data : StructureData) (i : ℕ) : JSVal :=
  jsDiv (cumulativeLoadJS data i) (effectiveColumnsJS data i)

/-- Column shear in JS semantics. -/
def columnShearForceJS (data : StructureData) (i c : ℕ) : JSVal :=
  if c = 0 ∨ c = numColumns data i - 1 then exteriorColumnShearJS data i
  else jsMul (exteriorColumnShearJS data i) (JSVal.fin 2)

/-- Source: `columnShearForce * (storyHeights[storyIndex] * 0.5)` in JS semantics. -/
def columnMomentValueJS (data : StructureData) (i c : ℕ) : JSVal :=
  jsMul (columnShearForceJS data i c)
    (jsMul (JSVal.fin (data.storyHeights.getD i 0)) (JSVal.fin 0.5))

/-- The story's column shear row in JS semantics. -/
def storyColumnShearJS (data : StructureData) (i : ℕ) : List JSVal :=
  (List.range (numColumns data i)).map (columnShearForceJS data i)

/-- The story's column moment row in JS semantics. -/
def storyColumnMomentJS (data : StructureData) (i : ℕ) : List JSVal :=
  (List.range (numColumns data i)).map (columnMomentValueJS data i)

/-- The accumulation loop of the girder pass in JS semantics. -/
def cumulativeColumnMomentJS (data : StructureData) (i c : ℕ) : JSVal :=
  (List.range (i + 1)).foldl
    (fun acc u =>
      if u = i then jsAdd acc ((storyColumnMomentJS data i).getD c (JSVal.fin 0))
      else if u < i then
        (if c < (storyColumnMomentJS data u).length then
          jsAdd acc ((storyColumnMomentJS data u).getD c (JSVal.fin 0))
        else acc)
      else acc) (JSVal.fin 0)

/-- The girder-moment sweep in JS semantics. -/
def girderMomentValueJS (data : StructureData) (i : ℕ) : ℕ → JSVal
  | 0 => cumulativeColumnMomentJS data i 0
  | s + 1 =>
    jsAbs (jsSub (cumulativeColumnMomentJS data i (s + 1)) (girderMomentValueJS data i s))

/-- The right-end moment in JS semantics. -/
def rightMomentJS (data : StructureData) (i s : ℕ) : JSVal :=
  if s < data.spansPerStory.getD i 0 - 1 then
    jsAbs (jsSub (cumulativeColumnMomentJS data i (s + 1)) (girderMomentValueJS data i s))
  else
    cumulativeColumnMomentJS data i (data.spansPerStory.getD i 0)

/-- Source: `(leftMoment + rightMoment) / spanLength` in JS semantics. -/
def girderShearValueJS (data : StructureData) (i s : ℕ) : JSVal :=
  jsDiv (jsAdd (girderMomentValueJS data i s) (rightMomentJS data i s))
    (JSVal.fin ((data.spanMeasurements.getD i []).getD s 0))

/-- The story's girder moment row in JS semantics. -/
def storyGirderMomentJS (data : StructureData) (i : ℕ) : List JSVal :=
  (List.range (data.spansPerStory.getD i 0)).map (girderMomentValueJS data i)

/-- The story's girder shear row in JS semantics. -/
def storyGirderShearJS (data : StructureData) (i : ℕ) : List JSVal :=
  (List.range (data.spansPerStory.getD i 0)).map (girderShearValueJS data i)

/-- The whole engine in JS semantics: total on every input, with no
validation and no error channel. -/
def calculateResultsJS (data : StructureData) : CalculationResults JSVal :=
  { columnShear := (List.range data.numStories).map (storyColumnShearJS data)
    columnMoment := (List.range data.numStories).map (storyColumnMomentJS data)
    girderShear := (List.range data.numStories).map (storyGirderShearJS data)
    girderMoment := (List.range data.numStories).map (storyGirderMomentJS data) }

/-- Scaling: `scaleLoads data k` keeps the geometry and multiplies every lateral load
by `k`. -/
def scaleLoads (data : StructureData) (k : ℚ) : StructureData :=
  { data with lateralLoads := data.lateralLoads.map (fun load => k * load) }

/-! ## Helper lemmas -/

lemma getD_map_range {α : Type} (f : ℕ → α) (d : α) {n i : ℕ} (h : i < n) :
    ((List.range n).map f).getD i d = f i := by
  simp [List.getD_eq_getElem?_getD, List.getElem?_map, List.getElem?_range h]

lemma foldl_add_fn {β : Type} (g : β → ℚ) (l : List β) :
    ∀ r : ℚ, l.foldl (fun acc u => acc + g u) r = r + (l.map g).sum := by
  induction l with
  | nil => intro r; simp
  | cons a t ih => intro r; simp only [List.foldl_cons, List.map_cons, List.sum_cons, ih]; ring

lemma storyColumnShear_length (data : StructureData) (i : ℕ) :
    (storyColumnShear data i).length = numColumns data i := by
  simp [storyColumnShear]

lemma storyColumnMoment_length (data : StructureData) (i : ℕ) :
    (storyColumnMoment data i).length = numColumns data i := by
  simp [storyColumnMoment]

lemma storyColumnShear_getD (data : StructureData) {i c : ℕ} (h : c < numColumns data i) :
    (storyColumnShear data i).getD c 0 = columnShearForce data i c :=
  getD_map_range _ _ h

lemma storyColumnMoment_getD (data : StructureData) {i c : ℕ} (h : c < numColumns data i) :
    (storyColumnMoment data i).getD c 0 = columnMomentValue data i c :=
  getD_map_range _ _ h

lemma storyGirderMoment_getD (data : StructureData) {i s : ℕ}
    (h : s < data.spansPerStory.getD i 0) :
    (storyGirderMoment data i).getD s 0 = girderMomentValue data i s :=
  getD_map_range _ _ h

lemma storyGirderShear_getD (data : StructureData) {i s : ℕ}
    (h : s < data.spansPerStory.getD i 0) :
    (storyGirderShear data i).getD s 0 = girderShearValue data i s :=
  getD_map_range _ _ h

lemma columnShear_row (data : StructureData) {i : ℕ} (h : i < data.numStories) :
    (calculateResults data).columnShear.getD i [] = storyColumnShear data i := by
  simp only [calculateResults]; exact getD_map_range _ _ h

lemma columnMoment_row (data : StructureData) {i : ℕ} (h : i < data.numStories) :
    (calculateResults data).columnMoment.getD i [] = storyColumnMoment data i := by
  simp only [calculateResults]; exact getD_map_range _ _ h

lemma girderMoment_row (data : StructureData) {i : ℕ} (h : i < data.numStories) :
    (calculateResults data).girderMoment.getD i [] = storyGirderMoment data i := by
  simp only [calculateResults]; exact getD_map_range _ _ h

lemma girderShear_row (data : StructureData) {i : ℕ} (h : i < data.numStories) :
    (calculateResults data).girderShear.getD i [] = storyGirderShear data i := by
  simp only [calculateResults]; exact getD_map_range _ _ h

/-- The accumulation loop of the girder pass, rewritten as current-story term
plus a sum over the stories above: the foldl over `range (i+1)` splits into
the `u = i` step and the guarded `u < i` steps. -/
lemma cumulativeColumnMoment_eq (data : StructureData) (i c : ℕ) :
    cumulativeColumnMoment data i c = refJointColumnMoment data i c := by
  unfold cumulativeColumnMoment refJointColumnMoment
  have hbody : (fun (acc : ℚ) u =>
      if u = i then acc + (storyColumnMoment data i).getD c 0
      else if u < i then
        (if c < (storyColumnMoment data u).length then
          acc + (storyColumnMoment data u).getD c 0
        else acc)
      else acc) = fun (acc : ℚ) u => acc +
        (if u = i then (storyColumnMoment data i).getD c 0
         else if u < i then
           (if c < (storyColumnMoment data u).length then
             (storyColumnMoment data u).getD c 0
           else 0)
         else 0) := by
    funext acc u
    by_cases h1 : u = i
    · simp [h1]
    · by_cases h2 : u < i
      · by_cases h3 : c < (storyColumnMoment data u).length <;> simp [h1, h2, h3]
      · simp [h1, h2]
  rw [hbody, foldl_add_fn, zero_add, List.range_succ, List.map_append, List.sum_append]
  have hmap : (List.range i).map (fun u =>
      if u = i then (storyColumnMoment data i).getD c 0
      else if u < i then
        (if c < (storyColumnMoment data u).length then (storyColumnMoment data u).getD c 0 else 0)
      else 0) = (List.range i).map (fun u =>
      if c < numColumns data u then (storyColumnMoment data u).getD c 0 else 0) := by
    apply List.map_congr_left
    intro u hu
    have hu' : u < i := List.mem_range.mp hu
    simp [Nat.ne_of_lt hu', hu', storyColumnMoment_length]
  rw [hmap]
  simp [add_comm]

lemma girderMomentValue_eq_ref (data : StructureData) (i : ℕ) :
    ∀ s, girderMomentValue data i s = refGirderMoment data i s := by
  intro s
  induction s with
  | zero => simp [girderMomentValue, refGirderMoment, cumulativeColumnMoment_eq]
  | succ s ih => simp [girderMomentValue, refGirderMoment, cumulativeColumnMoment_eq, ih]

lemma rightMoment_eq_ref (data : StructureData) (i s : ℕ) :
    rightMoment data i s = refRightMoment data i s := by
  unfold rightMoment refRightMoment
  by_cases h : s + 1 < data.spansPerStory.getD i 0
  · have h' : s < data.spansPerStory.getD i 0 - 1 := by omega
    simp only [if_pos h, if_pos h', refGirderMoment, cumulativeColumnMoment_eq,
      girderMomentValue_eq_ref]
  · have h' : ¬s < data.spansPerStory.getD i 0 - 1 := by omega
    simp only [if_neg h, if_neg h', cumulativeColumnMoment_eq]

lemma girderShearValue_eq_ref (data : StructureData) (i s : ℕ) :
    girderShearValue data i s = refGirderShear data i s := by
  unfold girderShearValue refGirderShear
  rw [girderMomentValue_eq_ref, rightMoment_eq_ref]

lemma foldl_add_id (l : List ℚ) : ∀ r : ℚ, l.foldl (fun acc x => acc + x) r = r + l.sum := by
  induction l with
  | nil => intro r; simp
  | cons a t ih => intro r; simp only [List.foldl_cons, List.sum_cons, ih]; ring

lemma cumulativeLoad_eq_sum (data : StructureData) (i : ℕ) :
    cumulativeLoad data i = (data.lateralLoads.take (i + 1)).sum := by
  rw [cumulativeLoad, foldl_add_id, zero_add]

lemma cumulativeLoad_nonneg (data : StructureData)
    (hL : ∀ load ∈ data.lateralLoads, 0 ≤ load) (i : ℕ) : 0 ≤ cumulativeLoad data i := by
  rw [cumulativeLoad_eq_sum]
  exact List.sum_nonneg fun x hx => hL x (List.mem_of_mem_take hx)

lemma cumulativeLoad_succ_le (data : StructureData)
    (hL : ∀ load ∈ data.lateralLoads, 0 ≤ load) (i : ℕ) :
    cumulativeLoad data i ≤ cumulativeLoad data (i + 1) := by
  rw [cumulativeLoad_eq_sum, cumulativeLoad_eq_sum, List.take_succ (n := i + 1),
    List.sum_append]
  have hopt : 0 ≤ (data.lateralLoads[i + 1]?.toList).sum := by
    cases hg : data.lateralLoads[i + 1]? with
    | none => simp
    | some a =>
      have ha : a ∈ data.lateralLoads := by
        have := List.getElem?_eq_some_iff.mp hg
        obtain ⟨hlt, hval⟩ := this
        exact hval ▸ List.getElem_mem hlt
      simpa using hL a ha
  linarith

lemma one_le_numColumns (data : StructureData) (i : ℕ) : 1 ≤ numColumns data i :=
  Nat.le_add_left 1 _

lemma effectiveColumns_eq (data : StructureData) (i : ℕ) :
    effectiveColumns data i = 2 * (numColumns data i : ℚ) - 2 := by
  rw [effectiveColumns]; ring

lemma effectiveColumns_nonneg (data : StructureData) (i : ℕ) :
    0 ≤ effectiveColumns data i := by
  rw [effectiveColumns_eq]
  have h : (1 : ℚ) ≤ (numColumns data i : ℚ) := by
    exact_mod_cast one_le_numColumns data i
  linarith

lemma valid_spans_ge_one (data : StructureData) (hv : ValidStructure data) {i : ℕ}
    (hi : i < data.numStories) : 1 ≤ data.spansPerStory.getD i 0 := by
  obtain ⟨-, -, hlen, -, -, -, hspans, -, -, -⟩ := hv
  have hi' : i < data.spansPerStory.length := by omega
  rw [List.getD_eq_getElem _ _ hi']
  exact hspans _ (List.getElem_mem hi')

lemma valid_effectiveColumns_pos (data : StructureData) (hv : ValidStructure data) {i : ℕ}
    (hi : i < data.numStories) : 0 < effectiveColumns data i := by
  rw [effectiveColumns_eq]
  have h2 : 2 ≤ numColumns data i := by
    have := valid_spans_ge_one data hv hi
    unfold numColumns; omega
  have h2' : (2 : ℚ) ≤ (numColumns data i : ℚ) := by exact_mod_cast h2
  linarith

lemma exteriorColumnShear_nonneg (data : StructureData)
    (hL : ∀ load ∈ data.lateralLoads, 0 ≤ load) (i : ℕ) :
    0 ≤ exteriorColumnShear data i :=
  div_nonneg (cumulativeLoad_nonneg data hL i) (effectiveColumns_nonneg data i)

lemma columnShearForce_nonneg (data : StructureData)
    (hL : ∀ load ∈ data.lateralLoads, 0 ≤ load) (i c : ℕ) :
    0 ≤ columnShearForce data i c := by
  unfold columnShearForce
  have h := exteriorColumnShear_nonneg data hL i
  split <;> nlinarith

lemma valid_height_pos (data : StructureData) (hv : ValidStructure data) {i : ℕ}
    (hi : i < data.numStories) : 0 < data.storyHeights.getD i 0 := by
  obtain ⟨-, hlen, -, -, -, hpos, -, -, -, -⟩ := hv
  have hi' : i < data.storyHeights.length := by omega
  rw [List.getD_eq_getElem _ _ hi']
  exact hpos _ (List.getElem_mem hi')

lemma columnMomentValue_nonneg (data : StructureData) (hv : ValidStructure data)
    {i : ℕ} (hi : i < data.numStories) (c : ℕ) : 0 ≤ columnMomentValue data i c := by
  unfold columnMomentValue
  have h1 := columnShearForce_nonneg data (hv.2.2.2.2.2.2.2.2.2) i c
  have h2 := le_of_lt (valid_height_pos data hv hi)
  nlinarith

lemma storyColumnMoment_getD_nonneg (data : StructureData) (hv : ValidStructure data)
    {i : ℕ} (hi : i < data.numStories) (c : ℕ) :
    0 ≤ (storyColumnMoment data i).getD c 0 := by
  by_cases hc : c < numColumns data i
  · rw [storyColumnMoment_getD data hc]
    exact columnMomentValue_nonneg data hv hi c
  · rw [List.getD_eq_default]
    rw [storyColumnMoment_length]; omega

lemma cumulativeColumnMoment_nonneg (data : StructureData) (hv : ValidStructure data)
    {i : ℕ} (hi : i < data.numStories) (c : ℕ) :
    0 ≤ cumulativeColumnMoment data i c := by
  rw [cumulativeColumnMoment_eq, refJointColumnMoment]
  have h1 := storyColumnMoment_getD_nonneg data hv hi c
  have h2 : 0 ≤ ((List.range i).map (fun u =>
      if c < numColumns data u then (storyColumnMoment data u).getD c 0 else 0)).sum := by
    apply List.sum_nonneg
    intro x hx
    obtain ⟨u, hu, hux⟩ := List.mem_map.mp hx
    have hu' : u < i := List.mem_range.mp hu
    subst hux
    split
    · exact storyColumnMoment_getD_nonneg data hv (by omega) c
    · exact le_refl 0
  linarith

lemma girderMomentValue_nonneg (data : StructureData) (hv : ValidStructure data)
    {i : ℕ} (hi : i < data.numStories) (s : ℕ) :
    0 ≤ girderMomentValue data i s := by
  cases s with
  | zero => exact cumulativeColumnMoment_nonneg data hv hi 0
  | succ s => exact abs_nonneg _

lemma rightMoment_nonneg (data : StructureData) (hv : ValidStructure data)
    {i : ℕ} (hi : i < data.numStories) (s : ℕ) : 0 ≤ rightMoment data i s := by
  unfold rightMoment
  split
  · exact abs_nonneg _
  · exact cumulativeColumnMoment_nonneg data hv hi _

lemma valid_spanLength_pos (data : StructureData) (hv : ValidStructure data)
    {i s : ℕ} (hi : i < data.numStories) (hs : s < data.spansPerStory.getD i 0) :
    0 < (data.spanMeasurements.getD i []).getD s 0 := by
  obtain ⟨-, -, -, hlen, -, -, -, hshape, hpos, -⟩ := hv
  have hi' : i < data.spanMeasurements.length := by omega
  have hrow : data.spanMeasurements.getD i [] = data.spanMeasurements[i] :=
    List.getD_eq_getElem _ _ hi'
  have hs' : s < (data.spanMeasurements.getD i []).length := by
    rw [hshape i hi]; exact hs
  rw [hrow] at hs' ⊢
  rw [List.getD_eq_getElem _ _ hs']
  exact hpos _ (List.getElem_mem hi') _ (List.getElem_mem hs')

lemma girderShearValue_nonneg (data : StructureData) (hv : ValidStructure data)
    {i s : ℕ} (hi : i < data.numStories) (hs : s < data.spansPerStory.getD i 0) :
    0 ≤ girderShearValue data i s := by
  unfold girderShearValue
  apply div_nonneg
  · have h1 := girderMomentValue_nonneg data hv hi s
    have h2 := rightMoment_nonneg data hv hi s
    linarith
  · exact le_of_lt (valid_spanLength_pos data hv hi hs)

lemma sum_map_mul (k : ℚ) (l : List ℚ) : (l.map (fun x => k * x)).sum = k * l.sum := by
  induction l with
  | nil => simp
  | cons a t ih => simp only [List.map_cons, List.sum_cons, ih]; ring

lemma sum_map_mul_fn {β : Type} (k : ℚ) (t : β → ℚ) (l : List β) :
    (l.map (fun u => k * t u)).sum = k * (l.map t).sum := by
  induction l with
  | nil => simp
  | cons a l ih => simp only [List.map_cons, List.sum_cons, ih]; ring

lemma numColumns_scale (data : StructureData) (k : ℚ) (i : ℕ) :
    numColumns (scaleLoads data k) i = numColumns data i := rfl

lemma cumulativeLoad_scale (data : StructureData) (k : ℚ) (i : ℕ) :
    cumulativeLoad (scaleLoads data k) i = k * cumulativeLoad data i := by
  rw [cumulativeLoad_eq_sum, cumulativeLoad_eq_sum]
  show ((data.lateralLoads.map (fun load => k * load)).take (i + 1)).sum = _
  rw [← List.map_take, sum_map_mul]

lemma exteriorColumnShear_scale (data : StructureData) (k : ℚ) (i : ℕ) :
    exteriorColumnShear (scaleLoads data k) i = k * exteriorColumnShear data i := by
  unfold exteriorColumnShear
  rw [cumulativeLoad_scale]
  show k * cumulativeLoad data i / effectiveColumns data i = _
  ring

lemma columnShearForce_scale (data : StructureData) (k : ℚ) (i c : ℕ) :
    columnShearForce (scaleLoads data k) i c = k * columnShearForce data i c := by
  unfold columnShearForce
  rw [numColumns_scale, exteriorColumnShear_scale]
  split <;> ring

lemma columnMomentValue_scale (data : StructureData) (k : ℚ) (i c : ℕ) :
    columnMomentValue (scaleLoads data k) i c = k * columnMomentValue data i c := by
  unfold columnMomentValue
  rw [columnShearForce_scale]
  show k * columnShearForce data i c * (data.storyHeights.getD i 0 * 0.5) = _
  ring

lemma storyColumnShear_scale (data : StructureData) (k : ℚ) (i : ℕ) :
    storyColumnShear (scaleLoads data k) i = (storyColumnShear data i).map (fun x => k * x) := by
  unfold storyColumnShear
  rw [numColumns_scale, List.map_map]
  exact List.map_congr_left fun c _ => columnShearForce_scale data k i c

lemma storyColumnMoment_scale (data : StructureData) (k : ℚ) (i : ℕ) :
    storyColumnMoment (scaleLoads data k) i = (storyColumnMoment data i).map (fun x => k * x) := by
  unfold storyColumnMoment
  rw [numColumns_scale, List.map_map]
  exact List.map_congr_left fun c _ => columnMomentValue_scale data k i c

lemma storyColumnMoment_getD_scale (data : StructureData) (k : ℚ) (i c : ℕ) :
    (storyColumnMoment (scaleLoads data k) i).getD c 0 =
      k * (storyColumnMoment data i).getD c 0 := by
  by_cases hc : c < numColumns data i
  · rw [storyColumnMoment_getD _ (by rw [numColumns_scale]; exact hc),
      storyColumnMoment_getD _ hc, columnMomentValue_scale]
  · rw [List.getD_eq_default, List.getD_eq_default]
    · ring
    · rw [storyColumnMoment_length]; omega
    · rw [storyColumnMoment_length, numColumns_scale]; omega

lemma cumulativeColumnMoment_scale (data : StructureData) (k : ℚ) (i c : ℕ) :
    cumulativeColumnMoment (scaleLoads data k) i c = k * cumulativeColumnMoment data i c := by
  rw [cumulativeColumnMoment_eq, cumulativeColumnMoment_eq]
  unfold refJointColumnMoment
  rw [storyColumnMoment_getD_scale]
  have hmap : (List.range i).map (fun u =>
      if c < numColumns (scaleLoads data k) u then
        (storyColumnMoment (scaleLoads data k) u).getD c 0
      else 0) = (List.range i).map (fun u =>
      k * (if c < numColumns data u then (storyColumnMoment data u).getD c 0 else 0)) := by
    apply List.map_congr_left
    intro u _
    rw [numColumns_scale]
    split
    · exact storyColumnMoment_getD_scale data k u c
    · ring
  rw [hmap, sum_map_mul_fn]
  ring

lemma girderMomentValue_scale (data : StructureData) (k : ℚ) (hk : 0 ≤ k) (i : ℕ) :
    ∀ s, girderMomentValue (scaleLoads data k) i s = k * girderMomentValue data i s := by
  intro s
  induction s with
  | zero => simp only [girderMomentValue, cumulativeColumnMoment_scale]
  | succ s ih =>
    simp only [girderMomentValue, cumulativeColumnMoment_scale, ih]
    rw [← mul_sub, abs_mul, abs_of_nonneg hk]

lemma rightMoment_scale (data : StructureData) (k : ℚ) (hk : 0 ≤ k) (i s : ℕ) :
    rightMoment (scaleLoads data k) i s = k * rightMoment data i s := by
  unfold rightMoment
  have hsp : (scaleLoads data k).spansPerStory = data.spansPerStory := rfl
  rw [hsp]
  split
  · rw [cumulativeColumnMoment_scale, girderMomentValue_scale data k hk, ← mul_sub,
      abs_mul, abs_of_nonneg hk]
  · rw [cumulativeColumnMoment_scale]

lemma girderShearValue_scale (data : StructureData) (k : ℚ) (hk : 0 ≤ k) (i s : ℕ) :
    girderShearValue (scaleLoads data k) i s = k * girderShearValue data i s := by
  unfold girderShearValue
  have hsp : (scaleLoads data k).spanMeasurements = data.spanMeasurements := rfl
  rw [hsp, girderMomentValue_scale data k hk, rightMoment_scale data k hk]
  ring

lemma storyGirderMoment_scale (data : StructureData) (k : ℚ) (hk : 0 ≤ k) (i : ℕ) :
    storyGirderMoment (scaleLoads data k) i =
      (storyGirderMoment data i).map (fun x => k * x) := by
  unfold storyGirderMoment
  have hsp : (scaleLoads data k).spansPerStory = data.spansPerStory := rfl
  rw [hsp, List.map_map]
  exact List.map_congr_left fun s _ => girderMomentValue_scale data k hk i s

lemma storyGirderShear_scale (data : StructureData) (k : ℚ) (hk : 0 ≤ k) (i : ℕ) :
    storyGirderShear (scaleLoads data k) i =
      (storyGirderShear data i).map (fun x => k * x) := by
  unfold storyGirderShear
  have hsp : (scaleLoads data k).spansPerStory = data.spansPerStory := rfl
  rw [hsp, List.map_map]
  exact List.map_congr_left fun s _ => girderShearValue_scale data k hk i s

/-! ## Claims -/

/-- Claim C4: for every valid structure and story `i`, the effective column
units equal `numColumns + (numColumns - 2)` (reducing to `numColumns` when
`numColumns = 2`), each first/last column's shear is
`cumulativeLoad / effectiveColumnUnits` with every interior column carrying
exactly twice that, and each column moment is the column shear times the story
height times `0.5`. -/
theorem claim4_column_pass (data : StructureData) (_hv : ValidStructure data)
    (i : ℕ) (hi : i < data.numStories) :
    effectiveColumns data i = (numColumns data i : ℚ) + ((numColumns data i : ℚ) - 2) ∧
    (numColumns data i = 2 → effectiveColumns data i = (numColumns data i : ℚ)) ∧
    (∀ c, c < numColumns data i →
      ((calculateResults data).columnShear.getD i []).getD c 0 =
        (if c = 0 ∨ c = numColumns data i - 1 then
          cumulativeLoad data i / effectiveColumns data i
        else 2 * (cumulativeLoad data i / effectiveColumns data i))) ∧
    (∀ c, c < numColumns data i →
      ((calculateResults data).columnMoment.getD i []).getD c 0 =
        ((calculateResults data).columnShear.getD i []).getD c 0 *
          data.storyHeights.getD i 0 * 0.5) := by
  refine ⟨rfl, ?_, ?_, ?_⟩
  · intro h2
    rw [effectiveColumns_eq, h2]
    norm_num
  · intro c hc
    rw [columnShear_row data hi, storyColumnShear_getD data hc]
    unfold columnShearForce exteriorColumnShear
    split
    · rfl
    · ring
  · intro c hc
    rw [columnMoment_row data hi, columnShear_row data hi,
      storyColumnMoment_getD data hc, storyColumnShear_getD data hc]
    unfold columnMomentValue
    ring

/-- Witness for C4 at the default structure, story 0, interior column 1. -/
theorem claim4_witness :
    ValidStructure defaultStructureData ∧ 0 < defaultStructureData.numStories ∧
    1 < numColumns defaultStructureData 0 ∧
    ((calculateResults defaultStructureData).columnShear.getD 0 []).getD 1 0 =
      (if 1 = 0 ∨ 1 = numColumns defaultStructureData 0 - 1 then
        cumulativeLoad defaultStructureData 0 / effectiveColumns defaultStructureData 0
      else 2 * (cumulativeLoad defaultStructureData 0 / effectiveColumns defaultStructureData 0)) :=
  ⟨by decide, by decide, by decide,
    (claim4_column_pass defaultStructureData (by decide) 0 (by decide)).2.2.1 1 (by decide)⟩

/-- Claim C1 (amended): the joint column moment the girder-moment sweep uses at
story `i`, joint `c` equals `columnMoment[i][c]` plus the sum over all stories
`u < i` above of `columnMoment[u][c]` where column `c` exists per the
left-aligned rule (`c < spansPerStory[u] + 1`), a missing column contributing
exactly 0, never an error and never a skipped joint; for the topmost story the
sum is empty.  The sweep's first girder moment is exactly that joint moment.
(The original claim, that only story `i - 1` contributes, fails: see the
counterexample.) -/
theorem claim1_joint_moment_amended (data : StructureData) (hv : ValidStructure data)
    (i : ℕ) (hi : i < data.numStories) :
    (∀ c, cumulativeColumnMoment data i c =
      ((calculateResults data).columnMoment.getD i []).getD c 0 +
        ((List.range i).map (fun u =>
          if c < data.spansPerStory.getD u 0 + 1 then
            ((calculateResults data).columnMoment.getD u []).getD c 0
          else 0)).sum) ∧
    ((calculateResults data).girderMoment.getD i []).getD 0 0 =
      cumulativeColumnMoment data i 0 := by
  constructor
  · intro c
    rw [cumulativeColumnMoment_eq]
    unfold refJointColumnMoment
    rw [columnMoment_row data hi]
    congr 1
    apply congrArg
    apply List.map_congr_left
    intro u hu
    have hu' : u < data.numStories := by
      have := List.mem_range.mp hu
      omega
    rw [columnMoment_row data hu']
    rfl
  · rw [girderMoment_row data hi,
      storyGirderMoment_getD data (by have := valid_spans_ge_one data hv hi; omega)]
    rfl

/-- Counterexample to C1 as stated: on `data3` (three stories, one bay each,
top story loaded), the sweep's joint moment at story 2, joint 0 is 3/2 — the
column moments of stories 0, 1 and 2 all contribute — whereas
`columnMoment[2][0] + columnMoment[1][0]` (the story directly above only, the
spec's `jointColumnMoment`) is 1. -/
theorem claim1_counterexample :
    cumulativeColumnMoment data3 2 0 = 3 / 2 ∧
    ((calculateResults data3).girderMoment.getD 2 []).getD 0 0 = 3 / 2 ∧
    specJointColumnMoment data3 2 0 = 1 ∧
    cumulativeColumnMoment data3 2 0 ≠ specJointColumnMoment data3 2 0 := by
  refine ⟨?_, ?_, ?_, ?_⟩ <;>
    norm_num [cumulativeColumnMoment, calculateResults, storyGirderMoment, girderMomentValue,
      storyColumnMoment, columnMomentValue, columnShearForce, exteriorColumnShear,
      cumulativeLoad, effectiveColumns, numColumns, specJointColumnMoment, specColumnMoment,
      specColumnShear, specExteriorUnitShear, specCumulativeLoad, specEffectiveColumnUnits,
      data3, List.range_succ]

/-- Witness for the amended C1 at the default structure, story 1. -/
theorem claim1_witness :
    ValidStructure defaultStructureData ∧ 1 < defaultStructureData.numStories ∧
    ((calculateResults defaultStructureData).girderMoment.getD 1 []).getD 0 0 =
      cumulativeColumnMoment defaultStructureData 1 0 :=
  ⟨by decide, by decide,
    (claim1_joint_moment_amended defaultStructureData (by decide) 1 (by decide)).2⟩

/-- Claim C5 (amended): every girder shear is
`(girderMoment[i][s] + rightMoment) / spanLengths[i][s]`, where for a
non-rightmost span `rightMoment` is the value the sweep assigns to
`girderMoment[i][s+1]`, and for the rightmost span it is the joint column
moment the code accumulates at the last column (`cumulativeColumnMoment`,
which sums all stories above — the spec's adjacent-story-only
`jointColumnMoment` fails here, see the counterexample). -/
theorem claim5_girder_shear_amended (data : StructureData) (_hv : ValidStructure data)
    (i : ℕ) (hi : i < data.numStories) (s : ℕ) (hs : s < data.spansPerStory.getD i 0) :
    ((calculateResults data).girderShear.getD i []).getD s 0 =
      (((calculateResults data).girderMoment.getD i []).getD s 0 +
        (if s + 1 < data.spansPerStory.getD i 0 then
          ((calculateResults data).girderMoment.getD i []).getD (s + 1) 0
        else cumulativeColumnMoment data i (data.spansPerStory.getD i 0))) /
      (data.spanMeasurements.getD i []).getD s 0 := by
  rw [girderShear_row data hi, girderMoment_row data hi, storyGirderShear_getD data hs,
    storyGirderMoment_getD data hs]
  unfold girderShearValue
  have hright : rightMoment data i s =
      (if s + 1 < data.spansPerStory.getD i 0 then
        (storyGirderMoment data i).getD (s + 1) 0
      else cumulativeColumnMoment data i (data.spansPerStory.getD i 0)) := by
    unfold rightMoment
    by_cases h : s + 1 < data.spansPerStory.getD i 0
    · rw [if_pos h, if_pos (by omega : s < data.spansPerStory.getD i 0 - 1),
        storyGirderMoment_getD data h]
      rfl
    · rw [if_neg h, if_neg (by omega : ¬s < data.spansPerStory.getD i 0 - 1)]
  rw [hright]

/-- Counterexample to C5 as stated: on `data3`, span 0 of story 2 is the
rightmost span, and the code's right-end moment is the all-stories-above joint
moment 3/2, giving shear (3/2 + 3/2) / 1 = 3; the claim's formula with the
spec's `jointColumnMoment(i, spansPerStory[i])` would give (3/2 + 1) / 1 = 5/2. -/
theorem claim5_counterexample :
    ((calculateResults data3).girderShear.getD 2 []).getD 0 0 = 3 ∧
    (((calculateResults data3).girderMoment.getD 2 []).getD 0 0 +
        specJointColumnMoment data3 2 (data3.spansPerStory.getD 2 0)) /
      (data3.spanMeasurements.getD 2 []).getD 0 0 = 5 / 2 ∧
    (3 : ℚ) ≠ 5 / 2 := by
  refine ⟨?_, ?_, ?_⟩ <;>
    norm_num [calculateResults, storyGirderShear, girderShearValue, rightMoment,
      storyGirderMoment, girderMomentValue, cumulativeColumnMoment, storyColumnMoment,
      columnMomentValue, columnShearForce, exteriorColumnShear, cumulativeLoad,
      effectiveColumns, numColumns, specJointColumnMoment, specColumnMoment,
      specColumnShear, specExteriorUnitShear, specCumulativeLoad, specEffectiveColumnUnits,
      data3, List.range_succ]

/-- Witness for the amended C5 at the default structure, story 0, span 0. -/
theorem claim5_witness :
    ValidStructure defaultStructureData ∧ 0 < defaultStructureData.numStories ∧
    0 < defaultStructureData.spansPerStory.getD 0 0 ∧
    ((calculateResults defaultStructureData).girderShear.getD 0 []).getD 0 0 =
      (((calculateResults defaultStructureData).girderMoment.getD 0 []).getD 0 0 +
        (if 0 + 1 < defaultStructureData.spansPerStory.getD 0 0 then
          ((calculateResults defaultStructureData).girderMoment.getD 0 []).getD (0 + 1) 0
        else cumulativeColumnMoment defaultStructureData 0
          (defaultStructureData.spansPerStory.getD 0 0))) /
      (defaultStructureData.spanMeasurements.getD 0 []).getD 0 0 :=
  ⟨by decide, by decide, by decide,
    claim5_girder_shear_amended defaultStructureData (by decide) 0 (by decide) 0 (by decide)⟩

/-- Claim C2 (amended): the calculation entry point performs no structural
validation and has no error channel: for every input, structurally valid or
not, it returns a complete result grid with one row per story and rows of the
determined lengths (`numColumns` column entries, `spansPerStory` girder
entries).  The original claim, that invalid input yields a `ValidationError`
and no results, fails: see the counterexample. -/
theorem claim2_no_validation_amended (data : StructureData) :
    (calculateResults data).columnShear.length = data.numStories ∧
    (calculateResults data).columnMoment.length = data.numStories ∧
    (calculateResults data).girderShear.length = data.numStories ∧
    (calculateResults data).girderMoment.length = data.numStories ∧
    (∀ i, i < data.numStories →
      ((calculateResults data).columnShear.getD i []).length = numColumns data i ∧
      ((calculateResults data).columnMoment.getD i []).length = numColumns data i ∧
      ((calculateResults data).girderShear.getD i []).length =
        data.spansPerStory.getD i 0 ∧
      ((calculateResults data).girderMoment.getD i []).length =
        data.spansPerStory.getD i 0) := by
  refine ⟨by simp [calculateResults], by simp [calculateResults], by simp [calculateResults],
    by simp [calculateResults], ?_⟩
  intro i hi
  rw [columnShear_row data hi, columnMoment_row data hi, girderShear_row data hi,
    girderMoment_row data hi]
  refine ⟨storyColumnShear_length data i, storyColumnMoment_length data i, ?_, ?_⟩
  · simp [storyGirderShear]
  · simp [storyGirderMoment]

/-- Counterexample to C2 as stated: `invalidData` has a negative lateral load,
which spec section 4.1 must reject, yet the engine returns no error and
produces the fully populated grid below (a complete, physically meaningless
analysis). -/
theorem claim2_counterexample :
    ¬ValidStructure invalidData ∧
    calculateResults invalidData =
      { columnShear := [[-5, -5]]
        columnMoment := [[-7.5, -7.5]]
        girderShear := [[-3.75]]
        girderMoment := [[-7.5]] } := by
  constructor
  · decide
  · refine CalculationResults.ext ?_ ?_ ?_ ?_ <;>
      norm_num [calculateResults, storyColumnShear, storyColumnMoment, storyGirderShear,
        storyGirderMoment, girderShearValue, girderMomentValue, rightMoment,
        cumulativeColumnMoment, columnMomentValue, columnShearForce, exteriorColumnShear,
        cumulativeLoad, effectiveColumns, numColumns, invalidData, List.range_succ]

/-- Witness for the amended C2, instantiated at the invalid input itself:
even there the grids are complete. -/
theorem claim2_witness :
    ((calculateResults invalidData).columnShear.getD 0 []).length = numColumns invalidData 0 ∧
    ((calculateResults invalidData).girderMoment.getD 0 []).length =
      invalidData.spansPerStory.getD 0 0 :=
  ⟨((claim2_no_validation_amended invalidData).2.2.2.2 0 (by decide)).1,
    ((claim2_no_validation_amended invalidData).2.2.2.2 0 (by decide)).2.2.2⟩

set_option maxHeartbeats 2000000 in
/-- Claim C3: the spec's round-trip scenario on the default two-story
structure: cumulative loads 10 and 20, three columns with four effective
units, exterior unit shear 2.5, column shears [2.5, 5, 2.5] and moments
[3.75, 7.5, 3.75] on story 0 with girder moments [3.75, 3.75] and first girder
shear 1.875; story 1 carries the same distribution scaled by load, and its
joint column moments inherit story 0's column moments at matching joints. -/
theorem claim3_round_trip :
    cumulativeLoad defaultStructureData 0 = 10 ∧
    numColumns defaultStructureData 0 = 3 ∧
    effectiveColumns defaultStructureData 0 = 4 ∧
    exteriorColumnShear defaultStructureData 0 = 2.5 ∧
    (calculateResults defaultStructureData).columnShear.getD 0 [] = [2.5, 5, 2.5] ∧
    (calculateResults defaultStructureData).columnMoment.getD 0 [] = [3.75, 7.5, 3.75] ∧
    (calculateResults defaultStructureData).girderMoment.getD 0 [] = [3.75, 3.75] ∧
    ((calculateResults defaultStructureData).girderShear.getD 0 []).getD 0 0 = 1.875 ∧
    cumulativeLoad defaultStructureData 1 = 20 ∧
    (calculateResults defaultStructureData).columnShear.getD 1 [] = [5, 10, 5] ∧
    (calculateResults defaultStructureData).columnMoment.getD 1 [] = [7.5, 15, 7.5] ∧
    cumulativeColumnMoment defaultStructureData 1 0 =
      ((calculateResults defaultStructureData).columnMoment.getD 1 []).getD 0 0 +
        ((calculateResults defaultStructureData).columnMoment.getD 0 []).getD 0 0 ∧
    cumulativeColumnMoment defaultStructureData 1 1 =
      ((calculateResults defaultStructureData).columnMoment.getD 1 []).getD 1 0 +
        ((calculateResults defaultStructureData).columnMoment.getD 0 []).getD 1 0 ∧
    cumulativeColumnMoment defaultStructureData 1 2 =
      ((calculateResults defaultStructureData).columnMoment.getD 1 []).getD 2 0 +
        ((calculateResults defaultStructureData).columnMoment.getD 0 []).getD 2 0 := by
  refine ⟨?_, ?_, ?_, ?_, ?_, ?_, ?_, ?_, ?_, ?_, ?_, ?_, ?_, ?_⟩ <;>
    norm_num [calculateResults, storyColumnShear, storyColumnMoment, storyGirderShear,
      storyGirderMoment, girderShearValue, girderMomentValue, rightMoment,
      cumulativeColumnMoment, columnMomentValue, columnShearForce, exteriorColumnShear,
      cumulativeLoad, effectiveColumns, numColumns, defaultStructureData, List.range_succ,
      abs_of_nonneg (show (0 : ℚ) ≤ 15 / 4 by norm_num)]

/-- Claim C6 (amended): the engine's recurrence applies no rounding anywhere:
`calculateResults` coincides, on every input, with the reference engine
`refAnalyze`, which evaluates the same pass formulas (with the code's
all-stories-above joint accumulation) in full precision with no rounding step
and with the girder-shear pass reading the already-computed next girder
moment.  (As stated over the spec's section 4 formulas — whose joint moment
uses only the adjacent story — the claim fails; see the counterexample.  No
two-decimal rounding occurs inside the recurrence in either engine.) -/
theorem claim6_no_rounding_amended (data : StructureData) :
    calculateResults data = refAnalyze data := by
  refine CalculationResults.ext ?_ ?_ ?_ ?_
  · rfl
  · rfl
  · apply List.map_congr_left
    intro i _
    unfold storyGirderShear
    exact List.map_congr_left fun s _ => girderShearValue_eq_ref data i s
  · apply List.map_congr_left
    intro i _
    unfold storyGirderMoment
    exact List.map_congr_left fun s _ => girderMomentValue_eq_ref data i s

/-- Counterexample to C6 as stated: on `data3` the engine's girder moment at
story 2, span 0 is 3/2, while the full-precision evaluation of the spec's
section 4 formulas (`specAnalyze`, no rounding anywhere) gives 1, so the
engine does not coincide with the section 4 reference engine. -/
theorem claim6_counterexample :
    ((calculateResults data3).girderMoment.getD 2 []).getD 0 0 = 3 / 2 ∧
    ((specAnalyze data3).girderMoment.getD 2 []).getD 0 0 = 1 ∧
    calculateResults data3 ≠ specAnalyze data3 := by
  have h1 : ((calculateResults data3).girderMoment.getD 2 []).getD 0 0 = 3 / 2 := by
    norm_num [calculateResults, storyGirderMoment, girderMomentValue, cumulativeColumnMoment,
      storyColumnMoment, columnMomentValue, columnShearForce, exteriorColumnShear,
      cumulativeLoad, effectiveColumns, numColumns, data3, List.range_succ]
  have h2 : ((specAnalyze data3).girderMoment.getD 2 []).getD 0 0 = 1 := by
    norm_num [specAnalyze, specGirderMoment, specJointColumnMoment, specColumnMoment,
      specColumnShear, specExteriorUnitShear, specCumulativeLoad, specEffectiveColumnUnits,
      numColumns, data3, List.range_succ]
  refine ⟨h1, h2, ?_⟩
  intro h
  rw [h] at h1
  rw [h1] at h2
  norm_num at h2

/-- Claim C7: with non-negative lateral loads the cumulative load never
decreases going down the frame, and when two adjacent stories have the same
span count, each column's shear on the lower story is at least the shear of
the same-position column on the story directly above. -/
theorem claim7_monotone_load (data : StructureData)
    (hL : ∀ load ∈ data.lateralLoads, 0 ≤ load)
    (i : ℕ) (h1 : 1 ≤ i) (hi : i < data.numStories) :
    cumulativeLoad data (i - 1) ≤ cumulativeLoad data i ∧
    (data.spansPerStory.getD i 0 = data.spansPerStory.getD (i - 1) 0 →
      ∀ c, c < numColumns data i →
        ((calculateResults data).columnShear.getD (i - 1) []).getD c 0 ≤
          ((calculateResults data).columnShear.getD i []).getD c 0) := by
  have hmono : cumulativeLoad data (i - 1) ≤ cumulativeLoad data i := by
    have h := cumulativeLoad_succ_le data hL (i - 1)
    rwa [Nat.sub_add_cancel h1] at h
  refine ⟨hmono, ?_⟩
  intro hsp c hc
  have hnum : numColumns data (i - 1) = numColumns data i := by
    unfold numColumns
    rw [hsp]
  have hi' : i - 1 < data.numStories := by omega
  have hc' : c < numColumns data (i - 1) := by rw [hnum]; exact hc
  rw [columnShear_row data hi, columnShear_row data hi',
    storyColumnShear_getD data hc, storyColumnShear_getD data hc']
  have hext : exteriorColumnShear data (i - 1) ≤ exteriorColumnShear data i := by
    unfold exteriorColumnShear
    have hE : effectiveColumns data (i - 1) = effectiveColumns data i := by
      unfold effectiveColumns
      rw [hnum]
    rw [hE]
    rcases eq_or_lt_of_le (effectiveColumns_nonneg data i) with hE0 | hEpos
    · rw [← hE0, div_zero, div_zero]
    · gcongr
  unfold columnShearForce
  rw [hnum]
  split
  · exact hext
  · linarith

/-- Witness for C7 at the default structure, stories 0 and 1. -/
theorem claim7_witness :
    (∀ load ∈ defaultStructureData.lateralLoads, 0 ≤ load) ∧ (1 : ℕ) ≤ 1 ∧
    1 < defaultStructureData.numStories ∧
    cumulativeLoad defaultStructureData (1 - 1) ≤ cumulativeLoad defaultStructureData 1 :=
  ⟨by decide, le_refl 1, by decide,
    (claim7_monotone_load defaultStructureData (by decide) 1 (le_refl 1) (by decide)).1⟩

/-- Claim C8: for every valid structure, every entry of all four output grids
is non-negative. -/
theorem claim8_nonnegative (data : StructureData) (hv : ValidStructure data) :
    (∀ row ∈ (calculateResults data).columnShear, ∀ x ∈ row, 0 ≤ x) ∧
    (∀ row ∈ (calculateResults data).columnMoment, ∀ x ∈ row, 0 ≤ x) ∧
    (∀ row ∈ (calculateResults data).girderMoment, ∀ x ∈ row, 0 ≤ x) ∧
    (∀ row ∈ (calculateResults data).girderShear, ∀ x ∈ row, 0 ≤ x) := by
  have hL : ∀ load ∈ data.lateralLoads, 0 ≤ load := hv.2.2.2.2.2.2.2.2.2
  refine ⟨?_, ?_, ?_, ?_⟩
  · intro row hrow x hx
    simp only [calculateResults] at hrow
    obtain ⟨i, hi, rfl⟩ := List.mem_map.mp hrow
    unfold storyColumnShear at hx
    obtain ⟨c, _, rfl⟩ := List.mem_map.mp hx
    exact columnShearForce_nonneg data hL i c
  · intro row hrow x hx
    simp only [calculateResults] at hrow
    obtain ⟨i, hi, rfl⟩ := List.mem_map.mp hrow
    unfold storyColumnMoment at hx
    obtain ⟨c, _, rfl⟩ := List.mem_map.mp hx
    exact columnMomentValue_nonneg data hv (List.mem_range.mp hi) c
  · intro row hrow x hx
    simp only [calculateResults] at hrow
    obtain ⟨i, hi, rfl⟩ := List.mem_map.mp hrow
    unfold storyGirderMoment at hx
    obtain ⟨s, _, rfl⟩ := List.mem_map.mp hx
    exact girderMomentValue_nonneg data hv (List.mem_range.mp hi) s
  · intro row hrow x hx
    simp only [calculateResults] at hrow
    obtain ⟨i, hi, rfl⟩ := List.mem_map.mp hrow
    unfold storyGirderShear at hx
    obtain ⟨s, hs, rfl⟩ := List.mem_map.mp hx
    exact girderShearValue_nonneg data hv (List.mem_range.mp hi) (List.mem_range.mp hs)

/-- Witness for C8: the default structure's first column shear entry is
non-negative. -/
theorem claim8_witness :
    ValidStructure defaultStructureData ∧
    (0 : ℚ) ≤ ((calculateResults defaultStructureData).columnShear.getD 0 []).getD 0 0 := by
  refine ⟨by decide, ?_⟩
  have hgrid : 0 < (calculateResults defaultStructureData).columnShear.length := by
    simp [calculateResults, defaultStructureData]
  have hrow : (calculateResults defaultStructureData).columnShear.getD 0 [] ∈
      (calculateResults defaultStructureData).columnShear := by
    rw [List.getD_eq_getElem _ _ hgrid]
    exact List.getElem_mem hgrid
  have hlen : 0 < ((calculateResults defaultStructureData).columnShear.getD 0 []).length := by
    rw [columnShear_row defaultStructureData (by decide), storyColumnShear_length]
    decide
  have hx : ((calculateResults defaultStructureData).columnShear.getD 0 []).getD 0 0 ∈
      (calculateResults defaultStructureData).columnShear.getD 0 [] := by
    rw [List.getD_eq_getElem _ _ hlen]
    exact List.getElem_mem hlen
  exact (claim8_nonnegative defaultStructureData (by decide)).1 _ hrow _ hx

/-- Claim C9: the engine is positively homogeneous in the loading: scaling
every lateral load by `k ≥ 0` while keeping the geometry fixed scales every
entry of all four grids by exactly `k`. -/
theorem claim9_load_homogeneous (data : StructureData) (_hv : ValidStructure data)
    (k : ℚ) (hk : 0 ≤ k) :
    (calculateResults (scaleLoads data k)).columnShear =
      (calculateResults data).columnShear.map (List.map (fun x => k * x)) ∧
    (calculateResults (scaleLoads data k)).columnMoment =
      (calculateResults data).columnMoment.map (List.map (fun x => k * x)) ∧
    (calculateResults (scaleLoads data k)).girderMoment =
      (calculateResults data).girderMoment.map (List.map (fun x => k * x)) ∧
    (calculateResults (scaleLoads data k)).girderShear =
      (calculateResults data).girderShear.map (List.map (fun x => k * x)) := by
  refine ⟨?_, ?_, ?_, ?_⟩
  · simp only [calculateResults, scaleLoads, List.map_map]
    apply List.map_congr_left
    intro i _
    exact storyColumnShear_scale data k i
  · simp only [calculateResults, scaleLoads, List.map_map]
    apply List.map_congr_left
    intro i _
    exact storyColumnMoment_scale data k i
  · simp only [calculateResults, scaleLoads, List.map_map]
    apply List.map_congr_left
    intro i _
    exact storyGirderMoment_scale data k hk i
  · simp only [calculateResults, scaleLoads, List.map_map]
    apply List.map_congr_left
    intro i _
    exact storyGirderShear_scale data k hk i

/-- Witness for C9 at the default structure with `k = 2`. -/
theorem claim9_witness :
    ValidStructure defaultStructureData ∧ (0 : ℚ) ≤ 2 ∧
    (calculateResults (scaleLoads defaultStructureData 2)).columnShear =
      (calculateResults defaultStructureData).columnShear.map
        (List.map (fun x => (2 : ℚ) * x)) :=
  ⟨by decide, by norm_num,
    (claim9_load_homogeneous defaultStructureData (by decide) 2 (by norm_num)).1⟩

/-- Claim C10: the input with `spansPerStory = [0]` (one column, zero spans)
is accepted by the calculation entry point, the divisor
`effectiveColumns = 1 + (1 - 2)` is exactly 0, the unguarded division makes
the exterior column shear `Infinity`, and the call completes without error,
filling the column grids with the non-finite value instead of reporting a
failure. -/
theorem claim10_unguarded_division :
    ¬ValidStructure degenerateData ∧
    effectiveColumnsJS degenerateData 0 = JSVal.fin 0 ∧
    exteriorColumnShearJS degenerateData 0 = JSVal.posInf ∧
    calculateResultsJS degenerateData =
      { columnShear := [[JSVal.posInf]]
        columnMoment := [[JSVal.posInf]]
        girderShear := [[]]
        girderMoment := [[]] } ∧
    JSVal.isFinite JSVal.posInf = false := by
  have hE : effectiveColumnsJS degenerateData 0 = JSVal.fin 0 := by
    norm_num [effectiveColumnsJS, numColumns, degenerateData, jsAdd, jsSub]
  have hC : cumulativeLoadJS degenerateData 0 = JSVal.fin 10 := by
    norm_num [cumulativeLoadJS, degenerateData, jsAdd]
  have hext : exteriorColumnShearJS degenerateData 0 = JSVal.posInf := by
    unfold exteriorColumnShearJS
    rw [hE, hC]
    norm_num [jsDiv]
  have hn : numColumns degenerateData 0 = 1 := by decide
  have hsp : degenerateData.spansPerStory.getD 0 0 = 0 := by decide
  have hshear : columnShearForceJS degenerateData 0 0 = JSVal.posInf := by
    unfold columnShearForceJS
    rw [if_pos (Or.inl rfl), hext]
  have hmom : columnMomentValueJS degenerateData 0 0 = JSVal.posInf := by
    unfold columnMomentValueJS
    rw [hshear]
    norm_num [jsMul, degenerateData]
  have hrowS : storyColumnShearJS degenerateData 0 = [JSVal.posInf] := by
    unfold storyColumnShearJS
    rw [hn]
    simp [List.range_succ, hshear]
  have hrowM : storyColumnMomentJS degenerateData 0 = [JSVal.posInf] := by
    unfold storyColumnMomentJS
    rw [hn]
    simp [List.range_succ, hmom]
  refine ⟨by decide, hE, hext, ?_, rfl⟩
  refine CalculationResults.ext ?_ ?_ ?_ ?_
  · show (List.range 1).map (storyColumnShearJS degenerateData) = [[JSVal.posInf]]
    simp [List.range_succ, hrowS]
  · show (List.range 1).map (storyColumnMomentJS degenerateData) = [[JSVal.posInf]]
    simp [List.range_succ, hrowM]
  · show (List.range 1).map (storyGirderShearJS degenerateData) = [[]]
    simp only [List.range_succ, List.range_zero, List.nil_append, List.map_cons, List.map_nil,
      storyGirderShearJS, hsp]
  · show (List.range 1).map (storyGirderMomentJS degenerateData) = [[]]
    simp only [List.range_succ, List.range_zero, List.nil_append, List.map_cons, List.map_nil,
      storyGirderMomentJS, hsp]

end FramePro
